import Mathlib

/-!
Verification of the TR response caching and eviction subsystem of the
StockAI repository (`fastapi_tr_proxy`): cache-key derivation
(`TrRepository._generate_cache_key`), tiered TTL resolution
(`TrManager._get_tr_data`, `TrRepository.get_cache_name_by_ttl`),
lookup/store semantics (`TrRepository.cached`), scheduled bulk eviction
with exemptions (`TrRepository.evict_all_caches_at_intervals`), and the
configuration/TTL lookups of `KbsecTr`.

All definitions are shallow embeddings of the Python source.  Machine
time (`asyncio.get_event_loop().time()`) is modelled as `Int`; parameter
mappings (`Dict[str, Any]`, string-valued in every request the claims
touch) are modelled as insertion-ordered association lists
`List (String × String)`; byte strings are `List Nat` with each element
below 256 (the inputs involved are ASCII, so UTF-8 encoding is the
identity on code points).
-/

namespace StockAI

/-! ## SHA-256 (used by `_generate_cache_key` via `hashlib.sha256`) -/

/-- Truncate to a 32-bit word. -/
def w32 (n : Nat) : Nat := n % 4294967296

/-- Right rotation of a 32-bit word by `k` bits. -/
def rotr32 (k x : Nat) : Nat := w32 ((x >>> k) ||| (x <<< (32 - k)))

/-- The 64 SHA-256 round constants. -/
def shaK : List Nat :=
  [1116352408, 1899447441, 3049323471, 3921009573, 961987163, 1508970993,
   2453635748, 2870763221, 3624381080, 310598401, 607225278, 1426881987,
   1925078388, 2162078206, 2614888103, 3248222580, 3835390401, 4022224774,
   264347078, 604807628, 770255983, 1249150122, 1555081692, 1996064986,
   2554220882, 2821834349, 2952996808, 3210313671, 3336571891, 3584528711,
   113926993, 338241895, 666307205, 773529912, 1294757372, 1396182291,
   1695183700, 1986661051, 2177026350, 2456956037, 2730485921, 2820302411,
   3259730800, 3345764771, 3516065817, 3600352804, 4094571909, 275423344,
   430227734, 506948616, 659060556, 883997877, 958139571, 1322822218,
   1537002063, 1747873779, 1955562222, 2024104815, 2227730452, 2361852424,
   2428436474, 2756734187, 3204031479, 3329325298]

/-- The initial SHA-256 hash state. -/
def shaH0 : List Nat :=
  [1779033703, 3144134277, 1013904242, 2773480762,
   1359893119, 2600822924, 528734635, 1541459225]

/-- Fixed-width big-endian byte encoding of a natural number. -/
def natToBytesBE : Nat → Nat → List Nat
  | 0, _ => []
  | c + 1, n => natToBytesBE c (n >>> 8) ++ [n % 256]

/-- SHA-256 message padding: append `0x80`, zeros, and the 64-bit
big-endian bit length, reaching a multiple of 64 bytes. -/
def padMessage (m : List Nat) : List Nat :=
  let L := m.length
  let z := (119 - L % 64) % 64
  m ++ [128] ++ List.replicate z 0 ++ natToBytesBE 8 (8 * L)

/-- Group bytes into 32-bit words, big-endian. -/
def bytesToWords : List Nat → List Nat
  | a :: b :: c :: d :: rest =>
      (a * 16777216 + b * 65536 + c * 256 + d) :: bytesToWords rest
  | _ => []

/-- Split a list into chunks of 16 elements (fuel-driven so that the
kernel can reduce it). -/
def chunk16 : Nat → List Nat → List (List Nat)
  | 0, _ => []
  | _, [] => []
  | fuel + 1, l => l.take 16 :: chunk16 fuel (l.drop 16)

def smallSigma0 (x : Nat) : Nat := (rotr32 7 x) ^^^ (rotr32 18 x) ^^^ (x >>> 3)

def smallSigma1 (x : Nat) : Nat := (rotr32 17 x) ^^^ (rotr32 19 x) ^^^ (x >>> 10)

def bigSigma0 (x : Nat) : Nat := (rotr32 2 x) ^^^ (rotr32 13 x) ^^^ (rotr32 22 x)

def bigSigma1 (x : Nat) : Nat := (rotr32 6 x) ^^^ (rotr32 11 x) ^^^ (rotr32 25 x)

/-- Extend the 16 words of a block to the 64-word message schedule. -/
def buildSchedule (w16 : List Nat) : List Nat :=
  (List.range 48).foldl
    (fun w _ =>
      let n := w.length
      w ++ [w32 (smallSigma1 (w.getD (n - 2) 0) + w.getD (n - 7) 0 +
                 smallSigma0 (w.getD (n - 15) 0) + w.getD (n - 16) 0)])
    w16

/-- One round of the SHA-256 compression function. -/
def compressStep (s : List Nat) (kw : Nat × Nat) : List Nat :=
  match s with
  | [a, b, c, d, e, f, g, h] =>
      let ch := (e &&& f) ^^^ ((e ^^^ 4294967295) &&& g)
      let t1 := w32 (h + bigSigma1 e + ch + kw.1 + kw.2)
      let maj := (a &&& b) ^^^ (a &&& c) ^^^ (b &&& c)
      let t2 := w32 (bigSigma0 a + maj)
      [w32 (t1 + t2), a, b, c, w32 (d + t1), e, f, g]
  | _ => s

/-- Process one 16-word block, updating the 8-word hash state. -/
def processBlock (h : List Nat) (block : List Nat) : List Nat :=
  let s := (shaK.zip (buildSchedule block)).foldl compressStep h
  (h.zip s).map (fun p => w32 (p.1 + p.2))

/-- The eight 32-bit words of the SHA-256 digest of a byte string. -/
def sha256Words (m : List Nat) : List Nat :=
  (chunk16 (padMessage m).length (bytesToWords (padMessage m))).foldl processBlock shaH0

/-- The lowercase hex alphabet used by `hexdigest`. -/
def hexCharList : List Char := "0123456789abcdef".data

def hexDigit (n : Nat) : Char := hexCharList.getD (n % 16) '0'

/-- The eight hex characters of a 32-bit word, most significant first. -/
def wordToHex (n : Nat) : List Char :=
  (List.range 8).map (fun i => hexDigit (n >>> (4 * (7 - i))))

/-- Byte encoding of a string; the identity on code points for the ASCII
strings handled here (Python `str.encode()` / UTF-8). -/
def strBytes (s : String) : List Nat := s.data.map Char.toNat

/-- Model of `hashlib.sha256(s.encode()).hexdigest()`. -/
def sha256hex (s : String) : String :=
  String.mk (((sha256Words (strBytes s)).map wordToHex).flatten)

/-! ## Cache-key derivation (`TrRepository._generate_cache_key`) -/

/-- Escaping performed by `json.dumps` on the characters that require it
in the strings handled here (backslash and double quote; the
`ensure_ascii` escapes for non-ASCII code points are not modelled since
every input the claims touch is ASCII). -/
def jsonEscapeChar (c : Char) : List Char :=
  if c = '\\' then ['\\', '\\']
  else if c = '"' then ['\\', '"']
  else [c]

/-- A JSON string literal: quoted and escaped. -/
def jsonQuote (s : String) : String :=
  "\"" ++ String.mk (s.data.map jsonEscapeChar).flatten ++ "\""

/-- Python `json.dumps` applied to a string-keyed, string-valued dict in
its iteration order: default separators are `", "` and `": "`. -/
def jsonDumps (d : List (String × String)) : String :=
  "\x7b" ++ String.intercalate ", "
    (d.map (fun p => jsonQuote p.1 ++ ": " ++ jsonQuote p.2)) ++ "\x7d"

/-- Python tuple comparison on `(key, value)` pairs, as used by
`sorted(params.items())`: lexicographic, key first. -/
def pairLe (a b : String × String) : Prop :=
  a.1 < b.1 ∨ (a.1 = b.1 ∧ a.2 ≤ b.2)

instance : DecidableRel pairLe := fun a b => by
  unfold pairLe; infer_instance

instance : IsTotal (String × String) pairLe where
  total a b := by
    rcases lt_trichotomy a.1 b.1 with h | h | h
    · exact Or.inl (Or.inl h)
    · rcases le_total a.2 b.2 with h2 | h2
      · exact Or.inl (Or.inr ⟨h, h2⟩)
      · exact Or.inr (Or.inr ⟨h.symm, h2⟩)
    · exact Or.inr (Or.inl h)

instance : IsTrans (String × String) pairLe where
  trans a b c hab hbc := by
    rcases hab with h1 | ⟨h1, h1v⟩ <;> rcases hbc with h2 | ⟨h2, h2v⟩
    · exact Or.inl (h1.trans h2)
    · exact Or.inl (h2 ▸ h1)
    · exact Or.inl (h1 ▸ h2)
    · exact Or.inr ⟨h1.trans h2, h1v.trans h2v⟩

instance : IsAntisymm (String × String) pairLe where
  antisymm a b hab hba := by
    rcases hab with h1 | ⟨h1, h1v⟩ <;> rcases hba with h2 | ⟨h2, h2v⟩
    · exact absurd (h1.trans h2) (lt_irrefl _)
    · exact absurd h1 (h2 ▸ lt_irrefl _)
    · exact absurd h2 (h1 ▸ lt_irrefl _)
    · exact Prod.ext h1 (le_antisymm h1v h2v)

/-- Python `sorted(params.items())`: sorts the `(key, value)` pairs by
tuple comparison. -/
def sortParams (params : List (String × String)) : List (String × String) :=
  List.insertionSort pairLe params

/-- Model of `TrRepository._generate_cache_key` (tr_repository.py lines 61-82):
sort the parameters, serialize `f"{tr_code}_{json.dumps(sorted_params)}"`,
append `f"_{continue_key}"` when the continuation key is truthy, and hash
with SHA-256. -/
def generateCacheKey (trCode : String) (params : List (String × String))
    (continueKey : Option String) : String :=
  let keyStr := trCode ++ "_" ++ jsonDumps (sortParams params)
  let keyStr :=
    match continueKey with
    | some ck => if ck = "" then keyStr else keyStr ++ "_" ++ ck
    | none => keyStr
  sha256hex keyStr

/-! ## Repository state and the `cached` wrapper
(`TrRepository.cached`, tr_repository.py lines 118-157) -/

/-- First-match association-list lookup: Python `d[k]` / `k in d`. -/
def lookupAssoc {α : Type} (l : List (String × α)) (k : String) : Option α :=
  match l with
  | [] => none
  | p :: rest => if p.1 = k then some p.2 else lookupAssoc rest k

/-- Python dict assignment `d[k] = v`: overwrites in place if the key is
present, appends otherwise; keys stay unique and ordered. -/
def insertAssoc {α : Type} (k : String) (v : α) : List (String × α) → List (String × α)
  | [] => [(k, v)]
  | p :: rest => if p.1 = k then (k, v) :: rest else p :: insertAssoc k v rest

/-- Python `del d[k]` (for a present, unique key): removes the first
entry with that key. -/
def eraseKeyAssoc {α : Type} (k : String) : List (String × α) → List (String × α)
  | [] => []
  | p :: rest => if p.1 = k then rest else p :: eraseKeyAssoc k rest

/-- The mutable state of `TrRepository`: the `self.cache` dict and the
separate `self.cache_expiry` dict. -/
structure RepoState (V : Type) where
  cache : List (String × V)
  cacheExpiry : List (String × Int)
deriving DecidableEq

/-- The hit test of the `cached` wrapper (line 140):
`cache_key in self.cache and (cache_key not in self.cache_expiry
 or self.cache_expiry[cache_key] > current_time)`. -/
def cacheLookup {V : Type} (st : RepoState V) (k : String) (now : Int) : Option V :=
  match lookupAssoc st.cache k with
  | none => none
  | some v =>
    match lookupAssoc st.cacheExpiry k with
    | none => some v
    | some exp => if exp > now then some v else none

/-- The store step of the `cached` wrapper (lines 148-149):
`self.cache[cache_key] = result; self.cache_expiry[cache_key] = current_time + ttl`. -/
def cacheStore {V : Type} (st : RepoState V) (k : String) (v : V) (now ttl : Int) :
    RepoState V :=
  { cache := insertAssoc k v st.cache,
    cacheExpiry := insertAssoc k (now + ttl) st.cacheExpiry }

/-- Outcome of one wrapped call: the returned value or propagated
exception, the repository state afterwards, and how many times the
wrapped collaborator function ran. -/
structure CallResult (V : Type) where
  result : Except String V
  state : RepoState V
  collabCalls : Nat

/-- Body of the `wrapper` closure of `TrRepository.cached(tr_code, ttl)`
(lines 132-153): derive the key from `(tr_code, params, continue_key)`,
return the cached value on a hit, otherwise await the wrapped function
and cache whatever it returns; an exception raised by the wrapped
function propagates before the store lines run. -/
def cachedCall {V : Type} (trCode : String) (ttl : Int)
    (func : List (String × String) → Option String → Except String V)
    (st : RepoState V) (params : List (String × String))
    (continueKey : Option String) (now : Int) : CallResult V :=
  let k := generateCacheKey trCode params continueKey
  match cacheLookup st k now with
  | some v => ⟨Except.ok v, st, 0⟩
  | none =>
    match func params continueKey with
    | Except.error e => ⟨Except.error e, st, 1⟩
    | Except.ok r => ⟨Except.ok r, cacheStore st k r now ttl, 1⟩

/-! ## TTL tiers -/

/-- Constant `CACHE_TTL_MAP` (tr_repository.py lines 16-27). -/
def CACHE_TTL_MAP : List (String × Int) :=
  [("cache2Sec", 2), ("cache3Sec", 3), ("cache10Sec", 10), ("cache30Sec", 30),
   ("cache60Sec", 60), ("cache10Min", 600), ("cache30Min", 1800),
   ("cache1Hour", 3600), ("cache8Hour", 28800), ("cache24HourWithoutEvict", 86400)]

/-- Model of `TrRepository.get_cache_name_by_ttl` (lines 84-116): descending
first-match chain; everything below 2 (including 0 and negatives) falls
back to `"cache30Sec"`. -/
def getCacheNameByTtl (ttl : Int) : String :=
  if ttl ≥ 86400 then "cache24HourWithoutEvict"
  else if ttl ≥ 28800 then "cache8Hour"
  else if ttl ≥ 3600 then "cache1Hour"
  else if ttl ≥ 1800 then "cache30Min"
  else if ttl ≥ 600 then "cache10Min"
  else if ttl ≥ 60 then "cache60Sec"
  else if ttl ≥ 30 then "cache30Sec"
  else if ttl ≥ 10 then "cache10Sec"
  else if ttl ≥ 3 then "cache3Sec"
  else if ttl ≥ 2 then "cache2Sec"
  else "cache30Sec"

/-! ## Configuration (`KbsecTr`) -/

/-- One value of the `tr_rules` mapping loaded from `cache-config.json`:
an optional `"ttl"` field and an optional `"alias"` field. -/
structure TrRule where
  ttl : Option Int
  aliasName : Option String
deriving DecidableEq

/-- Model of `KbsecTr.get_cache_ttl` (tr_kbsec.py lines 429-443):
`tr = self.tr_rules.get(tr_code, {})`; an absent (or empty) rule yields
the default 30, otherwise `tr.get("ttl", 30)`. -/
def getCacheTtl (rules : List (String × TrRule)) (trCode : String) : Int :=
  match lookupAssoc rules trCode with
  | none => 30
  | some r => r.ttl.getD 30

/-- Model of `KbsecTr._load_cache_config` (tr_kbsec.py lines 58-79): the input is
the outcome of reading the config file (`none` when the file is missing,
`Except.error` when opening or `json.load` raises); both failure shapes
fall back to the empty rule set instead of raising. -/
def loadCacheConfig (file : Option (Except String (List (String × TrRule)))) :
    List (String × TrRule) :=
  match file with
  | none => []
  | some (Except.error _) => []
  | some (Except.ok cfg) => cfg

/-- Model of `KbsecTr.get_not_evict_tr_codes` (tr_kbsec.py lines 445-453):
a hardcoded list. -/
def notEvictTrCodes : List String := ["KBI50130"]

/-! ## The execution collaborator (`KbsecTr._real_tr_request`,
tr_kbsec.py lines 205-242) -/

/-- The response dict shape built by `tr_kbsec.py`, collapsed to its
`dataHeader` fields and a string-valued `dataBody`. -/
structure TrResponse where
  resultCode : String
  resultMessage : String
  processFlag : String
  category : String
  dataBody : List (String × String)
deriving DecidableEq

/-- The in-band failure payload built at tr_kbsec.py lines 234-242. -/
def errorResponse (msg : String) : TrResponse :=
  ⟨"500", "오류: " ++ msg, "E", "API", []⟩

/-- Model of `KbsecTr._real_tr_request`: when the gateway was never initialized
the method raises (`raise Exception("Java 게이트웨이 초기화 필요")`,
line 221); otherwise the Java call runs, and an exception it raises is
caught (lines 232-242) and turned into a normal return value carrying
`resultCode "500"` / `processFlag "E"`. -/
def realTrRequest (gatewayUp : Bool) (javaResult : Except String TrResponse) :
    Except String TrResponse :=
  if ¬ gatewayUp then Except.error "Java 게이트웨이 초기화 필요"
  else
    match javaResult with
    | Except.ok r => Except.ok r
    | Except.error e => Except.ok (errorResponse e)

/-! ## The orchestrator (`TrManager._get_tr_data`,
tr_manager.py lines 112-178) -/

/-- Model of `TrManager._get_tr_data`: resolve the configured TTL, then dispatch
through the descending tier chain; NotEvictSet codes always use the
86400-second cache, `ttl == 0` calls the collaborator directly with no
cache read or write, and any remaining (negative) TTL uses the default
30-second cache.  `request` is the execution collaborator
(`self.tr_impl.request`). -/
def getTrData {V : Type} (notEvictCodes : List String)
    (rules : List (String × TrRule))
    (request : String → List (String × String) → Option String → Except String V)
    (st : RepoState V) (trCode : String) (params : List (String × String))
    (continueKey : Option String) (now : Int) : CallResult V :=
  let ttl := getCacheTtl rules trCode
  if trCode ∈ notEvictCodes then
    cachedCall trCode 86400 (request trCode) st params continueKey now
  else if ttl ≥ 28800 then cachedCall trCode 28800 (request trCode) st params continueKey now
  else if ttl ≥ 3600 then cachedCall trCode 3600 (request trCode) st params continueKey now
  else if ttl ≥ 1800 then cachedCall trCode 1800 (request trCode) st params continueKey now
  else if ttl ≥ 600 then cachedCall trCode 600 (request trCode) st params continueKey now
  else if ttl ≥ 60 then cachedCall trCode 60 (request trCode) st params continueKey now
  else if ttl ≥ 30 then cachedCall trCode 30 (request trCode) st params continueKey now
  else if ttl ≥ 10 then cachedCall trCode 10 (request trCode) st params continueKey now
  else if ttl ≥ 3 then cachedCall trCode 3 (request trCode) st params continueKey now
  else if ttl ≥ 2 then cachedCall trCode 2 (request trCode) st params continueKey now
  else if ttl = 0 then ⟨request trCode params continueKey, st, 1⟩
  else cachedCall trCode 30 (request trCode) st params continueKey now

/-- The tier chosen by `_get_tr_data` for a code with configured TTL
`ttl`: `some t` means the call runs through the `t`-second cache, `none`
means the cache is bypassed. -/
def resolveTier (notEvictCodes : List String) (trCode : String) (ttl : Int) : Option Int :=
  if trCode ∈ notEvictCodes then some 86400
  else if ttl ≥ 28800 then some 28800
  else if ttl ≥ 3600 then some 3600
  else if ttl ≥ 1800 then some 1800
  else if ttl ≥ 600 then some 600
  else if ttl ≥ 60 then some 60
  else if ttl ≥ 30 then some 30
  else if ttl ≥ 10 then some 10
  else if ttl ≥ 3 then some 3
  else if ttl ≥ 2 then some 2
  else if ttl = 0 then none
  else some 30

/-- The descending tier list available to codes outside the NotEvictSet
in `_get_tr_data` (the 86400 tier is reachable only through the
NotEvictSet branch). -/
def nonExemptTiers : List Int := [28800, 3600, 1800, 600, 60, 30, 10, 3, 2]

/-! ## Scheduled full sweep
(`TrRepository.evict_all_caches_at_intervals`, tr_repository.py
lines 186-208) -/

/-- Bool test that `p` occurs at the start of `s`. -/
def startsWithChars : List Char → List Char → Bool
  | [], _ => true
  | _ :: _, [] => false
  | a :: p, b :: s => a == b && startsWithChars p s

/-- Python substring containment `p in s` on the underlying characters. -/
def containsSub (p s : List Char) : Bool :=
  match s with
  | [] => startsWithChars p []
  | _ :: rest => startsWithChars p s || containsSub p rest

/-- Model of `TrRepository.evict_all_caches_at_intervals`: collect every cache
key for which no not-evict code occurs as a substring
(`any(not_evict_code in key for not_evict_code in self.not_evict_tr_codes)`),
then delete those keys from both dicts. -/
def evictAllCachesAtIntervals {V : Type} (notEvictCodes : List String)
    (st : RepoState V) : RepoState V :=
  let keysToDelete := (st.cache.map Prod.fst).filter
    (fun k => ¬ notEvictCodes.any (fun c => containsSub c.data k.data))
  { cache := keysToDelete.foldl (fun m k => eraseKeyAssoc k m) st.cache,
    cacheExpiry := keysToDelete.foldl (fun m k => eraseKeyAssoc k m) st.cacheExpiry }

/-! Section: general facts about the embedded operations, shared by the
claim theorems below. -/

theorem lookupAssoc_insertAssoc_self {α : Type} (k : String) (v : α)
    (l : List (String × α)) : lookupAssoc (insertAssoc k v l) k = some v := by
  induction l with
  | nil => simp [insertAssoc, lookupAssoc]
  | cons p rest ih =>
    by_cases h : p.1 = k
    · simp [insertAssoc, h, lookupAssoc]
    · simp [insertAssoc, h, lookupAssoc, ih]

theorem mem_keys_insertAssoc {α : Type} (a k : String) (v : α)
    (l : List (String × α)) :
    a ∈ (insertAssoc k v l).map Prod.fst ↔ a = k ∨ a ∈ l.map Prod.fst := by
  induction l with
  | nil => simp [insertAssoc]
  | cons p rest ih =>
    by_cases h : p.1 = k
    · simp only [insertAssoc, if_pos h, List.map_cons, List.mem_cons]
      subst h
      tauto
    · simp only [insertAssoc, if_neg h, List.map_cons, List.mem_cons, ih]
      tauto

theorem nodup_keys_insertAssoc {α : Type} (k : String) (v : α)
    (l : List (String × α)) (h : (l.map Prod.fst).Nodup) :
    ((insertAssoc k v l).map Prod.fst).Nodup := by
  induction l with
  | nil => simp [insertAssoc]
  | cons p rest ih =>
    by_cases hpk : p.1 = k
    · simp only [insertAssoc, if_pos hpk, List.map_cons, List.nodup_cons] at h ⊢
      exact ⟨hpk ▸ h.1, h.2⟩
    · simp only [insertAssoc, if_neg hpk, List.map_cons, List.nodup_cons] at h ⊢
      refine ⟨?_, ih h.2⟩
      rw [mem_keys_insertAssoc]
      rintro (h1 | h2)
      · exact hpk h1
      · exact h.1 h2

theorem cacheLookup_cacheStore_self {V : Type} (st : RepoState V) (k : String)
    (v : V) (now ttl t : Int) :
    cacheLookup (cacheStore st k v now ttl) k t =
      if now + ttl > t then some v else none := by
  unfold cacheLookup cacheStore
  rw [lookupAssoc_insertAssoc_self, lookupAssoc_insertAssoc_self]

theorem cachedCall_of_miss {V : Type} (trCode : String) (ttl : Int)
    (func : List (String × String) → Option String → Except String V)
    (st : RepoState V) (params : List (String × String))
    (continueKey : Option String) (now : Int)
    (h : cacheLookup st (generateCacheKey trCode params continueKey) now = none) :
    cachedCall trCode ttl func st params continueKey now =
      match func params continueKey with
      | Except.error e => ⟨Except.error e, st, 1⟩
      | Except.ok r =>
          ⟨Except.ok r,
           cacheStore st (generateCacheKey trCode params continueKey) r now ttl, 1⟩ := by
  simp only [cachedCall, h]

theorem cachedCall_of_hit {V : Type} (trCode : String) (ttl : Int)
    (func : List (String × String) → Option String → Except String V)
    (st : RepoState V) (params : List (String × String))
    (continueKey : Option String) (now : Int) (v : V)
    (h : cacheLookup st (generateCacheKey trCode params continueKey) now = some v) :
    cachedCall trCode ttl func st params continueKey now = ⟨Except.ok v, st, 0⟩ := by
  simp only [cachedCall, h]

theorem getTrData_eq_tier {V : Type} (notEvictCodes : List String)
    (rules : List (String × TrRule))
    (request : String → List (String × String) → Option String → Except String V)
    (st : RepoState V) (trCode : String) (params : List (String × String))
    (continueKey : Option String) (now : Int) :
    getTrData notEvictCodes rules request st trCode params continueKey now =
      Option.elim (resolveTier notEvictCodes trCode (getCacheTtl rules trCode))
        ⟨request trCode params continueKey, st, 1⟩
        (fun t => cachedCall trCode t (request trCode) st params continueKey now) := by
  simp only [getTrData, resolveTier]
  by_cases h1 : trCode ∈ notEvictCodes
  · rw [if_pos h1, if_pos h1]; rfl
  rw [if_neg h1, if_neg h1]
  by_cases h2 : getCacheTtl rules trCode ≥ 28800
  · rw [if_pos h2, if_pos h2]; rfl
  rw [if_neg h2, if_neg h2]
  by_cases h3 : getCacheTtl rules trCode ≥ 3600
  · rw [if_pos h3, if_pos h3]; rfl
  rw [if_neg h3, if_neg h3]
  by_cases h4 : getCacheTtl rules trCode ≥ 1800
  · rw [if_pos h4, if_pos h4]; rfl
  rw [if_neg h4, if_neg h4]
  by_cases h5 : getCacheTtl rules trCode ≥ 600
  · rw [if_pos h5, if_pos h5]; rfl
  rw [if_neg h5, if_neg h5]
  by_cases h6 : getCacheTtl rules trCode ≥ 60
  · rw [if_pos h6, if_pos h6]; rfl
  rw [if_neg h6, if_neg h6]
  by_cases h7 : getCacheTtl rules trCode ≥ 30
  · rw [if_pos h7, if_pos h7]; rfl
  rw [if_neg h7, if_neg h7]
  by_cases h8 : getCacheTtl rules trCode ≥ 10
  · rw [if_pos h8, if_pos h8]; rfl
  rw [if_neg h8, if_neg h8]
  by_cases h9 : getCacheTtl rules trCode ≥ 3
  · rw [if_pos h9, if_pos h9]; rfl
  rw [if_neg h9, if_neg h9]
  by_cases h10 : getCacheTtl rules trCode ≥ 2
  · rw [if_pos h10, if_pos h10]; rfl
  rw [if_neg h10, if_neg h10]
  by_cases h11 : getCacheTtl rules trCode = 0
  · rw [if_pos h11, if_pos h11]; rfl
  rw [if_neg h11, if_neg h11]
  rfl

theorem getTrData_of_tier {V : Type} (notEvictCodes : List String)
    (rules : List (String × TrRule))
    (request : String → List (String × String) → Option String → Except String V)
    (st : RepoState V) (trCode : String) (params : List (String × String))
    (continueKey : Option String) (now : Int) (t : Int)
    (htier : resolveTier notEvictCodes trCode (getCacheTtl rules trCode) = some t) :
    getTrData notEvictCodes rules request st trCode params continueKey now =
      cachedCall trCode t (request trCode) st params continueKey now := by
  rw [getTrData_eq_tier, htier]
  rfl

theorem getTrData_of_no_tier {V : Type} (notEvictCodes : List String)
    (rules : List (String × TrRule))
    (request : String → List (String × String) → Option String → Except String V)
    (st : RepoState V) (trCode : String) (params : List (String × String))
    (continueKey : Option String) (now : Int)
    (htier : resolveTier notEvictCodes trCode (getCacheTtl rules trCode) = none) :
    getTrData notEvictCodes rules request st trCode params continueKey now =
      ⟨request trCode params continueKey, st, 1⟩ := by
  rw [getTrData_eq_tier, htier]
  rfl

theorem resolveTier_of_not_mem (notEvictCodes : List String) (trCode : String)
    (ttl : Int) (hc : trCode ∉ notEvictCodes) :
    resolveTier notEvictCodes trCode ttl = resolveTier [] trCode ttl := by
  unfold resolveTier
  rw [if_neg hc, if_neg (List.not_mem_nil trCode)]

theorem resolveTier_neg (notEvictCodes : List String) (trCode : String)
    (ttl : Int) (hc : trCode ∉ notEvictCodes) (hneg : ttl < 0) :
    resolveTier notEvictCodes trCode ttl = some 30 := by
  unfold resolveTier
  have c1 : ¬ ttl ≥ 28800 := by omega
  have c2 : ¬ ttl ≥ 3600 := by omega
  have c3 : ¬ ttl ≥ 1800 := by omega
  have c4 : ¬ ttl ≥ 600 := by omega
  have c5 : ¬ ttl ≥ 60 := by omega
  have c6 : ¬ ttl ≥ 30 := by omega
  have c7 : ¬ ttl ≥ 10 := by omega
  have c8 : ¬ ttl ≥ 3 := by omega
  have c9 : ¬ ttl ≥ 2 := by omega
  have c10 : ¬ ttl = 0 := by omega
  rw [if_neg hc, if_neg c1, if_neg c2, if_neg c3, if_neg c4, if_neg c5,
      if_neg c6, if_neg c7, if_neg c8, if_neg c9, if_neg c10]

theorem resolveTier_none_iff (notEvictCodes : List String) (trCode : String)
    (ttl : Int) (hc : trCode ∉ notEvictCodes) :
    resolveTier notEvictCodes trCode ttl = none ↔ ttl = 0 := by
  unfold resolveTier
  rw [if_neg hc]
  by_cases h2 : ttl ≥ 28800
  · rw [if_pos h2]; exact ⟨fun h => Option.noConfusion h, fun h => absurd h (by omega)⟩
  rw [if_neg h2]
  by_cases h3 : ttl ≥ 3600
  · rw [if_pos h3]; exact ⟨fun h => Option.noConfusion h, fun h => absurd h (by omega)⟩
  rw [if_neg h3]
  by_cases h4 : ttl ≥ 1800
  · rw [if_pos h4]; exact ⟨fun h => Option.noConfusion h, fun h => absurd h (by omega)⟩
  rw [if_neg h4]
  by_cases h5 : ttl ≥ 600
  · rw [if_pos h5]; exact ⟨fun h => Option.noConfusion h, fun h => absurd h (by omega)⟩
  rw [if_neg h5]
  by_cases h6 : ttl ≥ 60
  · rw [if_pos h6]; exact ⟨fun h => Option.noConfusion h, fun h => absurd h (by omega)⟩
  rw [if_neg h6]
  by_cases h7 : ttl ≥ 30
  · rw [if_pos h7]; exact ⟨fun h => Option.noConfusion h, fun h => absurd h (by omega)⟩
  rw [if_neg h7]
  by_cases h8 : ttl ≥ 10
  · rw [if_pos h8]; exact ⟨fun h => Option.noConfusion h, fun h => absurd h (by omega)⟩
  rw [if_neg h8]
  by_cases h9 : ttl ≥ 3
  · rw [if_pos h9]; exact ⟨fun h => Option.noConfusion h, fun h => absurd h (by omega)⟩
  rw [if_neg h9]
  by_cases h10 : ttl ≥ 2
  · rw [if_pos h10]; exact ⟨fun h => Option.noConfusion h, fun h => absurd h (by omega)⟩
  rw [if_neg h10]
  by_cases h11 : ttl = 0
  · rw [if_pos h11]; exact iff_of_true rfl h11
  rw [if_neg h11]
  exact ⟨fun h => Option.noConfusion h, fun h => absurd h h11⟩

theorem mem_of_startsWithChars {p s : List Char}
    (h : startsWithChars p s = true) : ∀ c ∈ p, c ∈ s := by
  induction p generalizing s with
  | nil => intro c hc; cases hc
  | cons a q ih =>
    cases s with
    | nil => cases h
    | cons b rest =>
      simp only [startsWithChars, Bool.and_eq_true, beq_iff_eq] at h
      intro c hc
      rcases List.mem_cons.mp hc with rfl | hc
      · rw [h.1]; exact List.mem_cons_self b rest
      · exact List.mem_cons_of_mem b (ih h.2 c hc)

theorem mem_of_containsSub {p s : List Char}
    (h : containsSub p s = true) : ∀ c ∈ p, c ∈ s := by
  induction s with
  | nil =>
    intro c hc
    cases p with
    | nil => cases hc
    | cons a q => simp [containsSub, startsWithChars] at h
  | cons b rest ih =>
    simp only [containsSub, Bool.or_eq_true] at h
    intro c hc
    rcases h with h | h
    · exact mem_of_startsWithChars h c hc
    · exact List.mem_cons_of_mem b (ih h c hc)

theorem hexDigit_mem (n : Nat) : hexDigit n ∈ hexCharList := by
  unfold hexDigit
  have h : n % 16 < 16 := Nat.mod_lt _ (by decide)
  set m := n % 16 with hm
  interval_cases m <;> decide

theorem sha256hex_chars (s : String) : ∀ c ∈ (sha256hex s).data, c ∈ hexCharList := by
  intro c hc
  simp only [sha256hex, String.data] at hc
  rw [List.mem_flatten] at hc
  obtain ⟨l, hl, hcl⟩ := hc
  rw [List.mem_map] at hl
  obtain ⟨w, _, rfl⟩ := hl
  simp only [wordToHex, List.mem_map] at hcl
  obtain ⟨i, _, rfl⟩ := hcl
  exact hexDigit_mem _

theorem containsSub_sha_false (s code : String)
    (hc : ∃ ch ∈ code.data, ch ∉ hexCharList) :
    containsSub code.data (sha256hex s).data = false := by
  by_contra h
  rw [Bool.not_eq_false] at h
  obtain ⟨ch, hch, hnot⟩ := hc
  exact hnot (sha256hex_chars s ch (mem_of_containsSub h ch hch))

/-- Every cache entry is stored under a SHA-256 hex-digest key, and the
hardcoded not-evict code `"KBI50130"` contains the character `K`, which
never occurs in a hex digest; so the sweep's substring test never spares
an entry, whatever the entry's originating request was. -/
theorem sweep_removes_hashed_key {V : Type} (s : String) (v : V)
    (expiry : List (String × Int)) :
    (evictAllCachesAtIntervals notEvictTrCodes ⟨[(sha256hex s, v)], expiry⟩).cache = [] := by
  have hfalse : containsSub ("KBI50130" : String).data (sha256hex s).data = false :=
    containsSub_sha_false s "KBI50130" ⟨'K', by decide, by decide⟩
  simp [evictAllCachesAtIntervals, notEvictTrCodes, hfalse, eraseKeyAssoc]


/-! Section: the claims. -/

/-- Claim C1, counterexample.  The claim says a call bearing a non-null
continuation key never produces a cache read or write and that no cache
entry is created for it; but in `_get_tr_data` such a call flows through
the `cached` wrapper like any other, so a first call on an empty
repository creates a cache entry, and an identical second call within
the TTL is answered from the cache with zero collaborator invocations
(the claim demands exactly one per call regardless of prior calls). -/
theorem C1_counterexample :
    (getTrData [] [] (fun _ _ _ => Except.ok "resp") (⟨[], []⟩ : RepoState String)
      "KABC0001" [] (some "CK") 0).state.cache.length = 1 ∧
    (getTrData [] [] (fun _ _ _ => Except.ok "resp")
      (getTrData [] [] (fun _ _ _ => Except.ok "resp") (⟨[], []⟩ : RepoState String)
        "KABC0001" [] (some "CK") 0).state
      "KABC0001" [] (some "CK") 1).collabCalls = 0 :=
  ⟨rfl, by decide⟩

/-- Claim C1, amended.  A call with a non-null continuation key is NOT
bypassed: it runs through the cached path for its resolved tier, with
the continuation key included in the cache key; on a miss the
collaborator is invoked exactly once and the response is stored under
that key, and on a hit the cached value is returned with no
collaborator invocation. -/
theorem C1_amended {V : Type} (notEvictCodes : List String)
    (rules : List (String × TrRule))
    (request : String → List (String × String) → Option String → Except String V)
    (st : RepoState V) (code : String) (params : List (String × String))
    (ck : String) (now t : Int)
    (htier : resolveTier notEvictCodes code (getCacheTtl rules code) = some t) :
    (getTrData notEvictCodes rules request st code params (some ck) now =
      cachedCall code t (request code) st params (some ck) now) ∧
    (∀ v, cacheLookup st (generateCacheKey code params (some ck)) now = none →
        request code params (some ck) = Except.ok v →
        (getTrData notEvictCodes rules request st code params (some ck) now).collabCalls = 1 ∧
        lookupAssoc
          (getTrData notEvictCodes rules request st code params (some ck) now).state.cache
          (generateCacheKey code params (some ck)) = some v) ∧
    (∀ v0, cacheLookup st (generateCacheKey code params (some ck)) now = some v0 →
        getTrData notEvictCodes rules request st code params (some ck) now =
          ⟨Except.ok v0, st, 0⟩) := by
  have hmain := getTrData_of_tier notEvictCodes rules request st code params
    (some ck) now t htier
  refine ⟨hmain, ?_, ?_⟩
  · intro v hmiss hok
    rw [hmain, cachedCall_of_miss _ _ _ _ _ _ _ hmiss, hok]
    exact ⟨rfl, lookupAssoc_insertAssoc_self _ _ _⟩
  · intro v0 hhit
    rw [hmain]
    exact cachedCall_of_hit _ _ _ _ _ _ _ _ hhit

/-- Claim C1, witness for the amended theorem at a concrete input. -/
theorem C1_witness :
    (getTrData [] [] (fun _ _ _ => Except.ok "resp") (⟨[], []⟩ : RepoState String)
      "KABC0001" [] (some "CK") 0).collabCalls = 1 ∧
    lookupAssoc (getTrData [] [] (fun _ _ _ => Except.ok "resp")
      (⟨[], []⟩ : RepoState String) "KABC0001" [] (some "CK") 0).state.cache
      (generateCacheKey "KABC0001" [] (some "CK")) = some "resp" :=
  (C1_amended [] [] (fun _ _ _ => Except.ok "resp") ⟨[], []⟩ "KABC0001" [] "CK" 0 30
    (by decide)).2.1 "resp" rfl rfl

/-- Claim C2.  The claim says the sweep spares the entries of exempt
codes; but `evict_all_caches_at_intervals` tests exemption by substring
containment of the code in the cache key, and keys are SHA-256 hex
digests in which the exempt code `"KBI50130"` (containing `K`) can never
occur, so the sweep deletes the exempt code's own entry: after the sweep
the cache is empty and the entry is no longer retrievable at any time. -/
theorem C2_code_behavior :
    (evictAllCachesAtIntervals notEvictTrCodes
      (⟨[(generateCacheKey "KBI50130" [] none, "cached-response")],
        [(generateCacheKey "KBI50130" [] none, 1000000)]⟩ : RepoState String)).cache = [] ∧
    ∀ t : Int, cacheLookup (evictAllCachesAtIntervals notEvictTrCodes
      (⟨[(generateCacheKey "KBI50130" [] none, "cached-response")],
        [(generateCacheKey "KBI50130" [] none, 1000000)]⟩ : RepoState String))
      (generateCacheKey "KBI50130" [] none) t = none := by
  have h : (evictAllCachesAtIntervals notEvictTrCodes
      (⟨[(generateCacheKey "KBI50130" [] none, "cached-response")],
        [(generateCacheKey "KBI50130" [] none, 1000000)]⟩ : RepoState String)).cache = [] :=
    sweep_removes_hashed_key _ _ _
  refine ⟨h, fun t => ?_⟩
  unfold cacheLookup
  rw [h]
  rfl

/-- Claim C3, counterexample.  The claim says tier resolution snaps raw
TTL 90000 to 86400 for a non-exempt code; the orchestrator's chain has
no 86400 branch for non-exempt codes and yields 28800.  (The unused
repository helper `get_cache_name_by_ttl` does map 90000 to the 24-hour
cache, but it maps raw TTL 0 to `"cache30Sec"`, contradicting the
claim's `0 -> no-cache` row instead.) -/
theorem C3_counterexample :
    resolveTier [] "KXXX0001" 90000 = some 28800 ∧
    resolveTier [] "KXXX0001" 90000 ≠ some 86400 ∧
    getCacheNameByTtl 0 = "cache30Sec" :=
  ⟨rfl, by decide, rfl⟩

/-- Claim C3, amended.  For a non-exempt code the orchestrator snaps the
raw TTL down to the largest tier in 28800, 3600, 1800, 600, 60, 30, 10,
3, 2 that it meets or exceeds (the 86400 tier is reserved for
NotEvictSet codes, so raw TTLs of 86400 and above also get 28800); a
positive TTL below 2 falls back to the 30-second tier; a TTL of exactly
0 disables caching; the spec's test vector holds with 90000 mapping to
28800 instead of 86400. -/
theorem C3_amended (notEvictCodes : List String) (code : String)
    (hc : code ∉ notEvictCodes) :
    (∀ ttl : Int, 2 ≤ ttl →
      ∃ t : Int, resolveTier notEvictCodes code ttl = some t ∧ t ∈ nonExemptTiers ∧
        t ≤ ttl ∧ ∀ u ∈ nonExemptTiers, u ≤ ttl → u ≤ t) ∧
    (∀ ttl : Int, 0 < ttl → ttl < 2 → resolveTier notEvictCodes code ttl = some 30) ∧
    resolveTier notEvictCodes code 0 = none ∧
    resolveTier notEvictCodes code 90000 = some 28800 ∧
    resolveTier notEvictCodes code 30000 = some 28800 ∧
    resolveTier notEvictCodes code 4000 = some 3600 ∧
    resolveTier notEvictCodes code 2000 = some 1800 ∧
    resolveTier notEvictCodes code 700 = some 600 ∧
    resolveTier notEvictCodes code 65 = some 60 ∧
    resolveTier notEvictCodes code 35 = some 30 ∧
    resolveTier notEvictCodes code 12 = some 10 ∧
    resolveTier notEvictCodes code 4 = some 3 ∧
    resolveTier notEvictCodes code 2 = some 2 ∧
    resolveTier notEvictCodes code 1 = some 30 := by
  have hb : ∀ ttl : Int, resolveTier notEvictCodes code ttl = resolveTier [] code ttl :=
    fun ttl => resolveTier_of_not_mem _ _ _ hc
  refine ⟨?_, ?_, by rw [hb]; rfl, by rw [hb]; rfl, by rw [hb]; rfl, by rw [hb]; rfl,
    by rw [hb]; rfl, by rw [hb]; rfl, by rw [hb]; rfl, by rw [hb]; rfl, by rw [hb]; rfl,
    by rw [hb]; rfl, by rw [hb]; rfl, by rw [hb]; rfl⟩
  · intro ttl h2
    rw [hb]
    unfold resolveTier
    rw [if_neg (List.not_mem_nil code)]
    by_cases k1 : ttl ≥ 28800
    · rw [if_pos k1]
      refine ⟨28800, rfl, by decide, by omega, ?_⟩
      intro u hu hle
      simp only [nonExemptTiers] at hu
      fin_cases hu <;> omega
    rw [if_neg k1]
    by_cases k2 : ttl ≥ 3600
    · rw [if_pos k2]
      refine ⟨3600, rfl, by decide, by omega, ?_⟩
      intro u hu hle
      simp only [nonExemptTiers] at hu
      fin_cases hu <;> omega
    rw [if_neg k2]
    by_cases k3 : ttl ≥ 1800
    · rw [if_pos k3]
      refine ⟨1800, rfl, by decide, by omega, ?_⟩
      intro u hu hle
      simp only [nonExemptTiers] at hu
      fin_cases hu <;> omega
    rw [if_neg k3]
    by_cases k4 : ttl ≥ 600
    · rw [if_pos k4]
      refine ⟨600, rfl, by decide, by omega, ?_⟩
      intro u hu hle
      simp only [nonExemptTiers] at hu
      fin_cases hu <;> omega
    rw [if_neg k4]
    by_cases k5 : ttl ≥ 60
    · rw [if_pos k5]
      refine ⟨60, rfl, by decide, by omega, ?_⟩
      intro u hu hle
      simp only [nonExemptTiers] at hu
      fin_cases hu <;> omega
    rw [if_neg k5]
    by_cases k6 : ttl ≥ 30
    · rw [if_pos k6]
      refine ⟨30, rfl, by decide, by omega, ?_⟩
      intro u hu hle
      simp only [nonExemptTiers] at hu
      fin_cases hu <;> omega
    rw [if_neg k6]
    by_cases k7 : ttl ≥ 10
    · rw [if_pos k7]
      refine ⟨10, rfl, by decide, by omega, ?_⟩
      intro u hu hle
      simp only [nonExemptTiers] at hu
      fin_cases hu <;> omega
    rw [if_neg k7]
    by_cases k8 : ttl ≥ 3
    · rw [if_pos k8]
      refine ⟨3, rfl, by decide, by omega, ?_⟩
      intro u hu hle
      simp only [nonExemptTiers] at hu
      fin_cases hu <;> omega
    rw [if_neg k8]
    by_cases k9 : ttl ≥ 2
    · rw [if_pos k9]
      refine ⟨2, rfl, by decide, by omega, ?_⟩
      intro u hu hle
      simp only [nonExemptTiers] at hu
      fin_cases hu <;> omega
    exact absurd h2 k9
  · intro ttl h0 h2
    have h1 : ttl = 1 := by omega
    subst h1
    rw [hb]
    rfl

/-- Claim C3, witness for the amended theorem at a concrete input. -/
theorem C3_witness :
    resolveTier [] "KXXX0001" 0 = none ∧
    resolveTier [] "KXXX0001" 90000 = some 28800 ∧
    resolveTier [] "KXXX0001" 1 = some 30 := by
  refine ⟨(C3_amended [] "KXXX0001" (by decide)).2.2.1,
    (C3_amended [] "KXXX0001" (by decide)).2.2.2.1, ?_⟩
  exact (C3_amended [] "KXXX0001" (by decide)).2.1 1 (by decide) (by decide)

/-- Claim C4.  A code in the NotEvictSet always resolves to the top
86400-second tier regardless of its configured TTL, and the orchestrator
routes every such call through the 86400-second cached path; the
evict-exempt mark is exactly membership in the not-evict list that the
sweep consults. -/
theorem C4_exemption_override {V : Type} (notEvictCodes : List String)
    (rules : List (String × TrRule)) (code : String) (h : code ∈ notEvictCodes) :
    (∀ ttl : Int, resolveTier notEvictCodes code ttl = some 86400) ∧
    (∀ (request : String → List (String × String) → Option String → Except String V)
        (st : RepoState V) (params : List (String × String))
        (ck : Option String) (now : Int),
      getTrData notEvictCodes rules request st code params ck now =
        cachedCall code 86400 (request code) st params ck now) := by
  have h86 : ∀ ttl : Int, resolveTier notEvictCodes code ttl = some 86400 := by
    intro ttl
    unfold resolveTier
    rw [if_pos h]
  exact ⟨h86, fun request st params ck now =>
    getTrData_of_tier _ _ _ _ _ _ _ _ _ (h86 _)⟩

/-- Claim C4, witness: the hardcoded exempt code with configured TTL 10
still resolves to 86400. -/
theorem C4_witness :
    resolveTier notEvictTrCodes "KBI50130" 10 = some 86400 :=
  (C4_exemption_override (V := String) notEvictTrCodes
    [("KBI50130", ⟨some 10, none⟩)] "KBI50130" (by decide)).1 10

/-- Claim C5, counterexample.  The claim says a collaborator failure is
propagated as a distinct failure kind, never cached and never converted
into a normal response; but `_real_tr_request` catches the execution
failure and RETURNS a normal-shaped response with resultCode 500, which
the cached wrapper then stores like any success. -/
theorem C5_counterexample :
    realTrRequest true (Except.error "boom") = Except.ok (errorResponse "boom") ∧
    (cachedCall "KABC0001" 30 (fun _ _ => realTrRequest true (Except.error "boom"))
      (⟨[], []⟩ : RepoState TrResponse) [] none 0).result =
        Except.ok (errorResponse "boom") ∧
    (cachedCall "KABC0001" 30 (fun _ _ => realTrRequest true (Except.error "boom"))
      (⟨[], []⟩ : RepoState TrResponse) [] none 0).state.cache.length = 1 :=
  ⟨rfl, rfl, rfl⟩

/-- Claim C5, amended.  On a cache miss an exception raised by the
wrapped collaborator call (in the real path only the
gateway-uninitialized precondition raises) propagates to the caller and
leaves the cache unchanged; but a failure of the Java execution itself
is caught inside `_real_tr_request` and converted into a normal response
carrying resultCode "500" / processFlag "E", which is returned as a
success and cached under the request's key like any other response. -/
theorem C5_amended (trCode : String) (ttl : Int)
    (func : List (String × String) → Option String → Except String TrResponse)
    (st : RepoState TrResponse) (params : List (String × String))
    (ck : Option String) (now : Int)
    (hmiss : cacheLookup st (generateCacheKey trCode params ck) now = none) :
    (∀ e, func params ck = Except.error e →
        cachedCall trCode ttl func st params ck now = ⟨Except.error e, st, 1⟩) ∧
    (∀ v, func params ck = Except.ok v →
        (cachedCall trCode ttl func st params ck now).result = Except.ok v ∧
        lookupAssoc (cachedCall trCode ttl func st params ck now).state.cache
          (generateCacheKey trCode params ck) = some v) ∧
    (∀ e, realTrRequest true (Except.error e) = Except.ok (errorResponse e)) ∧
    (∀ jr, realTrRequest false jr = Except.error "Java 게이트웨이 초기화 필요") := by
  refine ⟨?_, ?_, fun e => rfl, fun jr => rfl⟩
  · intro e he
    rw [cachedCall_of_miss _ _ _ _ _ _ _ hmiss, he]
  · intro v hv
    rw [cachedCall_of_miss _ _ _ _ _ _ _ hmiss, hv]
    exact ⟨rfl, lookupAssoc_insertAssoc_self _ _ _⟩

/-- Claim C5, witness for the amended theorem at concrete inputs: the
raised gateway failure propagates uncached, and a converted Java
execution failure is cached as a normal response. -/
theorem C5_witness :
    cachedCall "KABC0001" 30 (fun _ _ => Except.error "down")
      (⟨[], []⟩ : RepoState TrResponse) [] none 0 = ⟨Except.error "down", ⟨[], []⟩, 1⟩ ∧
    lookupAssoc (cachedCall "KABC0001" 30
      (fun _ _ => realTrRequest true (Except.error "boom"))
      (⟨[], []⟩ : RepoState TrResponse) [] none 0).state.cache
      (generateCacheKey "KABC0001" [] none) = some (errorResponse "boom") :=
  ⟨(C5_amended "KABC0001" 30 (fun _ _ => Except.error "down") ⟨[], []⟩ [] none 0
      rfl).1 "down" rfl,
   ((C5_amended "KABC0001" 30 (fun _ _ => realTrRequest true (Except.error "boom"))
      ⟨[], []⟩ [] none 0 rfl).2.1 (errorResponse "boom") rfl).2⟩

/-- Claim C6.  Storing a value under a key with a positive TTL makes it
retrievable by lookups strictly before `now + ttl` and a miss from
`now + ttl` on: an entry is visible exactly while the current time is
below its expiry. -/
theorem C6_roundtrip {V : Type} (st : RepoState V) (k : String) (v : V)
    (now ttl t : Int) (hpos : 0 < ttl) :
    (t < now + ttl → cacheLookup (cacheStore st k v now ttl) k t = some v) ∧
    (now + ttl ≤ t → cacheLookup (cacheStore st k v now ttl) k t = none) := by
  constructor
  · intro h
    rw [cacheLookup_cacheStore_self, if_pos (by omega)]
  · intro h
    rw [cacheLookup_cacheStore_self, if_neg (by omega)]

/-- Claim C6, witness at a concrete input. -/
theorem C6_witness :
    cacheLookup (cacheStore (⟨[], []⟩ : RepoState String) "k" "v" 0 5) "k" 3 = some "v" ∧
    cacheLookup (cacheStore (⟨[], []⟩ : RepoState String) "k" "v" 0 5) "k" 5 = none :=
  ⟨(C6_roundtrip ⟨[], []⟩ "k" "v" 0 5 3 (by decide)).1 (by decide),
   (C6_roundtrip ⟨[], []⟩ "k" "v" 0 5 5 (by decide)).2 (by decide)⟩

/-- Claim C7, counterexample.  The claim says a store with non-positive
TTL leaves the cache completely unchanged; but the wrapper's store step
runs unconditionally, so a store with TTL -1 overwrites a live entry
(the cache now holds the new value with an already-past expiry) and the
previously retrievable value is lost. -/
theorem C7_counterexample :
    (cacheStore (⟨[("k", "v1")], [("k", 100)]⟩ : RepoState String) "k" "v2" 0 (-1)).cache
      = [("k", "v2")] ∧
    cacheLookup (cacheStore (⟨[("k", "v1")], [("k", 100)]⟩ : RepoState String)
      "k" "v2" 0 (-1)) "k" 1 = none ∧
    cacheLookup (⟨[("k", "v1")], [("k", 100)]⟩ : RepoState String) "k" 1 = some "v1" := by
  refine ⟨?_, ?_, ?_⟩ <;> decide

/-- Claim C7, amended.  The store step always inserts or overwrites the
single entry at its key with expiry `now + ttl`; keys stay unique
(overwrite, never duplicate); an entry stored with `ttl <= 0` is
immediately expired, invisible to every lookup at or after `now` —
though the cache state itself does change. -/
theorem C7_amended {V : Type} (st : RepoState V) (k : String) (v : V)
    (now ttl : Int) :
    lookupAssoc (cacheStore st k v now ttl).cache k = some v ∧
    lookupAssoc (cacheStore st k v now ttl).cacheExpiry k = some (now + ttl) ∧
    (ttl ≤ 0 → ∀ t : Int, now ≤ t → cacheLookup (cacheStore st k v now ttl) k t = none) ∧
    ((st.cache.map Prod.fst).Nodup → ((cacheStore st k v now ttl).cache.map Prod.fst).Nodup) := by
  refine ⟨lookupAssoc_insertAssoc_self _ _ _, lookupAssoc_insertAssoc_self _ _ _, ?_, ?_⟩
  · intro hle t hts
    rw [cacheLookup_cacheStore_self, if_neg (by omega)]
  · intro hnd
    exact nodup_keys_insertAssoc _ _ _ hnd

/-- Claim C7, witness for the amended theorem at a concrete input. -/
theorem C7_witness :
    lookupAssoc (cacheStore (⟨[("k", "v1")], [("k", 100)]⟩ : RepoState String)
      "k" "v2" 0 (-1)).cache "k" = some "v2" ∧
    cacheLookup (cacheStore (⟨[("k", "v1")], [("k", 100)]⟩ : RepoState String)
      "k" "v2" 0 (-1)) "k" 0 = none :=
  ⟨(C7_amended ⟨[("k", "v1")], [("k", 100)]⟩ "k" "v2" 0 (-1)).1,
   (C7_amended ⟨[("k", "v1")], [("k", 100)]⟩ "k" "v2" 0 (-1)).2.2.1
     (by decide) 0 (by decide)⟩

/-- Claim C8.  Key derivation is a pure function of
`(code, params, continuation key)`, and parameter mappings that are
permutations of one another (the same key-value pairs in any insertion
order) produce identical cache keys, because the parameters are sorted
before serialization and hashing. -/
theorem C8_key_stability (code : String) (p1 p2 : List (String × String))
    (h : p1.Perm p2) :
    generateCacheKey code p1 none = generateCacheKey code p2 none := by
  have hs : sortParams p1 = sortParams p2 :=
    List.eq_of_perm_of_sorted
      (((List.perm_insertionSort pairLe p1).trans h).trans
        (List.perm_insertionSort pairLe p2).symm)
      (List.sorted_insertionSort pairLe p1)
      (List.sorted_insertionSort pairLe p2)
  unfold generateCacheKey
  rw [hs]

/-- Claim C8, witness at a concrete input. -/
theorem C8_witness :
    generateCacheKey "KABC0001" [("b", "2"), ("a", "1")] none =
      generateCacheKey "KABC0001" [("a", "1"), ("b", "2")] none :=
  C8_key_stability "KABC0001" [("b", "2"), ("a", "1")] [("a", "1"), ("b", "2")]
    (by decide)

/-- Claim C9.  A code absent from the loaded rule configuration resolves
to the default TTL of 30 seconds, and a missing or malformed
configuration file makes loading fall back to the empty rule set (a
total function — nothing is raised), under which every code gets the
default 30. -/
theorem C9_default_and_fallback :
    (∀ (rules : List (String × TrRule)) (code : String),
        lookupAssoc rules code = none → getCacheTtl rules code = 30) ∧
    (∀ code : String, getCacheTtl (loadCacheConfig none) code = 30) ∧
    (∀ (e : String) (code : String),
        getCacheTtl (loadCacheConfig (some (Except.error e))) code = 30) := by
  refine ⟨?_, fun code => rfl, fun e code => rfl⟩
  intro rules code h
  unfold getCacheTtl
  rw [h]

/-- Claim C9, witness at a concrete input. -/
theorem C9_witness :
    getCacheTtl [("KOTHER01", ⟨some 60, none⟩)] "KABC0001" = 30 ∧
    getCacheTtl (loadCacheConfig none) "KABC0001" = 30 :=
  ⟨C9_default_and_fallback.1 [("KOTHER01", ⟨some 60, none⟩)] "KABC0001" rfl,
   C9_default_and_fallback.2.1 "KABC0001"⟩

/-- Claim C10.  A non-exempt code whose resolved TTL is strictly
negative is still cached: the orchestrator's final branch uses the
default 30-second tier, exactly as for an unconfigured code, and a
resolved tier of `none` (cache bypass) happens exactly when the TTL is
0. -/
theorem C10_negative_ttl {V : Type} (notEvictCodes : List String)
    (rules : List (String × TrRule)) (code : String)
    (h : code ∉ notEvictCodes) (hneg : getCacheTtl rules code < 0) :
    (∀ (request : String → List (String × String) → Option String → Except String V)
        (st : RepoState V) (params : List (String × String))
        (ck : Option String) (now : Int),
      getTrData notEvictCodes rules request st code params ck now =
        cachedCall code 30 (request code) st params ck now) ∧
    (∀ (request : String → List (String × String) → Option String → Except String V)
        (st : RepoState V) (params : List (String × String))
        (ck : Option String) (now : Int),
      getTrData notEvictCodes rules request st code params ck now =
        getTrData notEvictCodes [] request st code params ck now) ∧
    (∀ ttl : Int, resolveTier notEvictCodes code ttl = none ↔ ttl = 0) := by
  have h30 : resolveTier notEvictCodes code (getCacheTtl rules code) = some 30 :=
    resolveTier_neg _ _ _ h hneg
  have hdef : getCacheTtl ([] : List (String × TrRule)) code = 30 := rfl
  have h30' : resolveTier notEvictCodes code
      (getCacheTtl ([] : List (String × TrRule)) code) = some 30 := by
    rw [hdef, resolveTier_of_not_mem _ _ _ h]
    rfl
  refine ⟨?_, ?_, fun ttl => resolveTier_none_iff _ _ _ h⟩
  · intro request st params ck now
    exact getTrData_of_tier _ _ _ _ _ _ _ _ _ h30
  · intro request st params ck now
    rw [getTrData_of_tier _ _ _ _ _ _ _ _ _ h30,
        getTrData_of_tier _ _ _ _ _ _ _ _ _ h30']

/-- Claim C10, witness at a concrete input (configured TTL -7). -/
theorem C10_witness :
    getTrData [] [("KNEG0001", ⟨some (-7), none⟩)] (fun _ _ _ => Except.ok "r")
      (⟨[], []⟩ : RepoState String) "KNEG0001" [] none 0 =
      cachedCall "KNEG0001" 30 ((fun _ _ _ => Except.ok "r") "KNEG0001")
        (⟨[], []⟩ : RepoState String) [] none 0 ∧
    (resolveTier [] "KNEG0001" (-7) = none ↔ (-7 : Int) = 0) :=
  ⟨(C10_negative_ttl [] [("KNEG0001", ⟨some (-7), none⟩)] "KNEG0001"
      (by decide) (by decide)).1 (fun _ _ _ => Except.ok "r") ⟨[], []⟩ [] none 0,
   (C10_negative_ttl (V := String) [] [("KNEG0001", ⟨some (-7), none⟩)] "KNEG0001"
      (by decide) (by decide)).2.2 (-7)⟩

end StockAI